import Mathlib

/-!
Shallow embedding of `internal/scheduler/scheduler.go` of pg_timetable.

External collaborators (the `pgengine` store, the shell, the builtin task
registry) are modelled as explicit oracle inputs: each call the scheduler
makes to them is replaced by a value drawn from an environment record, and
each side-effecting call (status writes, transaction control, task
dispatch) is recorded in an explicit trace so theorems can speak about
what was written, committed, rolled back or executed.
-/

namespace Scheduler

/-- `const workersNumber = 16` -/
def workersNumber : Nat := 16

/-- `const refetchTimeout = 60` -/
def refetchTimeout : Nat := 60

/-- `const maxChainsThreshold = workersNumber * refetchTimeout` -/
def maxChainsThreshold : Nat := workersNumber * refetchTimeout

/-- The `Chain` struct: rows of `timetable.chain_execution_config`. -/
structure Chain where
  chainExecutionConfigID : Int
  chainID : Int
  chainName : String
  selfDestruct : Bool
  exclusiveExecution : Bool
  maxInstances : Int
  deriving Repr, DecidableEq

/-- The fields of `pgengine.ChainElementExecution` the scheduler reads. -/
structure ChainElementExecution where
  chainConfig : Int
  chainID : Int
  taskName : String
  script : String
  kind : String
  ignoreError : Bool
  deriving Repr, DecidableEq

/-- Oracle for the external calls made while executing one chain element:
`GetChainParamValues` success, and the results the three task backends
(`ExecuteSQLTask`, `executeShellCommand`, `tasks.ExecuteTask`) would
report if invoked.  A `Bool` error models Go `err != nil`. -/
structure ElemEnv where
  paramValuesOk : Bool
  paramValues : List String
  sqlErr : Bool
  shellRetCode : Int
  shellOut : String
  shellErr : Bool
  builtinErr : Bool
  deriving Repr, DecidableEq

/-- Observable actions of the task dispatcher: which backend actually ran. -/
inductive TaskEvent where
  | sqlExec (script : String) (params : List String)
  | shellExec (script : String) (params : List String)
  | builtinExec (taskName : String) (params : List String)
  deriving Repr, DecidableEq

/-- Result of the `switch chainElemExec.Kind` statement: either an early
`return` out of `executeСhainElement`, or falling through to the shared
error-normalization epilogue with the `retCode`/`err` variables as the
switch left them (`retCode` stays `0` in the SQL/BUILTIN/default arms). -/
inductive SwitchResult where
  | earlyReturn (code : Int)
  | fallthrough (retCode : Int) (errNotNil : Bool)
  deriving Repr, DecidableEq

/-- The `switch chainElemExec.Kind` body, with the list of backend
invocations it performs.  `noShellTasks` is `pgengine.NoShellTasks`. -/
def switchByKind (noShellTasks : Bool) (env : ElemEnv) (e : ChainElementExecution) :
    SwitchResult × List TaskEvent :=
  if e.kind = "SQL" then
    (.fallthrough 0 env.sqlErr, [.sqlExec e.script env.paramValues])
  else if e.kind = "SHELL" then
    if noShellTasks then
      (.earlyReturn (-1), [])
    else
      (.fallthrough env.shellRetCode env.shellErr, [.shellExec e.script env.paramValues])
  else if e.kind = "BUILTIN" then
    (.fallthrough 0 env.builtinErr, [.builtinExec e.taskName env.paramValues])
  else
    (.fallthrough 0 false, [])

/-- `executeСhainElement`: returns the Go function's `int` result paired
with the trace of backend invocations.  Mirrors the source: failed
parameter resolution returns `-1`; then the kind switch; then the shared
epilogue `if err != nil { if retCode != 0 { return retCode }; return -1 };
return 0`. -/
def executeChainElement (noShellTasks : Bool) (env : ElemEnv)
    (e : ChainElementExecution) : Int × List TaskEvent :=
  if env.paramValuesOk = false then
    (-1, [])
  else
    match switchByKind noShellTasks env e with
    | (.earlyReturn code, evs) => (code, evs)
    | (.fallthrough retCode errNotNil, evs) =>
      if errNotNil then
        (if retCode ≠ 0 then retCode else -1, evs)
      else
        (0, evs)

/-- One `pgengine.UpdateChainRunStatus` write: `elem = some i` when the
element passed in is the `i`-th fetched chain element, `none` for the
final write made with a freshly built `ChainElementExecution`. -/
structure StatusRecord where
  elem : Option Nat
  status : String
  deriving Repr, DecidableEq

/-- Fate of the transaction opened by `executeChain`. -/
inductive TxOutcome where
  | noTx
  | rolledBack
  | committed
  deriving Repr, DecidableEq

/-- Everything observable about one `executeChain` call: the sequence of
`UpdateChainRunStatus` writes, whether `InsertChainRunStatus` ran, the
transaction's fate, the indices of elements passed to
`executeСhainElement`, and all backend invocations. -/
structure ChainRunResult where
  statusRecords : List StatusRecord
  runInserted : Bool
  txOutcome : TxOutcome
  dispatched : List Nat
  events : List TaskEvent
  deriving Repr, DecidableEq

/-- The `for _, chainElemExec := range ChainElements` loop of
`executeChain`, starting at element index `i`.  Each iteration writes
`STARTED`, dispatches, and either writes `CHAIN_FAILED` and stops
(unignored non-zero code) or writes `CHAIN_DONE` and continues.
Returns the status writes, dispatched indices, events, and whether the
loop ended in the `CHAIN_FAILED` early return. -/
def chainLoop (noShellTasks : Bool) :
    List (ChainElementExecution × ElemEnv) → Nat →
    List StatusRecord × List Nat × List TaskEvent × Bool
  | [], _ => ([], [], [], false)
  | (e, env) :: rest, i =>
    let r := executeChainElement noShellTasks env e
    if r.1 ≠ 0 ∧ e.ignoreError = false then
      ([⟨some i, "STARTED"⟩, ⟨some i, "CHAIN_FAILED"⟩], [i], r.2, true)
    else
      let tail := chainLoop noShellTasks rest (i + 1)
      (⟨some i, "STARTED"⟩ :: ⟨some i, "CHAIN_DONE"⟩ :: tail.1,
       i :: tail.2.1, r.2 ++ tail.2.2.1, tail.2.2.2)

/-- `executeChain`: oracle inputs are transaction-start success
(`StartTransaction`), element-fetch success (`GetChainElements`), and the
fetched elements, each paired with the oracle for its own dispatch. -/
def executeChain (noShellTasks txStartOk fetchOk : Bool)
    (items : List (ChainElementExecution × ElemEnv)) : ChainRunResult :=
  if txStartOk = false then
    ⟨[], false, .noTx, [], []⟩
  else if fetchOk = false then
    ⟨[], false, .rolledBack, [], []⟩
  else
    let body := chainLoop noShellTasks items 0
    if body.2.2.2 then
      ⟨body.1, true, .rolledBack, body.2.1, body.2.2.1⟩
    else
      ⟨body.1 ++ [⟨none, "CHAIN_DONE"⟩], true, .committed, body.2.1, body.2.2.1⟩

/-- The condition of `executeChain`'s early-return branch for one element:
its dispatch result is non-zero and `IgnoreError` is unset. -/
def unignoredFailure (noShellTasks : Bool) (item : ChainElementExecution × ElemEnv) : Prop :=
  (executeChainElement noShellTasks item.2 item.1).1 ≠ 0 ∧ item.1.ignoreError = false

instance (noShellTasks : Bool) (item : ChainElementExecution × ElemEnv) :
    Decidable (unignoredFailure noShellTasks item) := by
  unfold unignoredFailure
  exact inferInstance

/-- Outcome of one Go `select { case <-time.After(...): ... case <-ctx.Done(): ... }`:
which arm fired. -/
inductive LoopEvent where
  | timeout
  | cancelled
  deriving Repr, DecidableEq

/-- `type RunStatus int` with its two constants (`ConnectionDroppped`
keeps the source's spelling). -/
inductive RunStatus where
  | ConnectionDroppped
  | ContextCancelled
  deriving Repr, DecidableEq

/-- Oracle for `Run`: per-iteration results of `pgengine.TryLockClientName`,
the select arm taken while waiting for the lock, the select arm taken in
the main loop, and per-iteration results of `pgengine.IsAlive`. -/
structure RunEnv where
  tryLock : Nat → Bool
  lockEvent : Nat → LoopEvent
  mainEvent : Nat → LoopEvent
  isAlive : Nat → Bool

/-- The `for !pgengine.TryLockClientName(ctx)` loop of `Run`, at attempt
`i` with `fuel` iterations of budget.  `none` = budget exhausted while
still looping; `some none` = lock acquired, control falls through;
`some (some s)` = `Run` returned `s` from inside this loop. -/
def lockLoop (env : RunEnv) : Nat → Nat → Option (Option RunStatus)
  | _, 0 => none
  | i, fuel + 1 =>
    if env.tryLock i then
      some none
    else
      match env.lockEvent i with
      | .cancelled => some (some .ContextCancelled)
      | .timeout => lockLoop env (i + 1) fuel

/-- The infinite `for { ... }` polling loop of `Run`, at cycle `i` with
`fuel` iterations of budget: on `timeout`, return `ConnectionDroppped`
when `IsAlive` fails, else loop; on `ctx.Done`, return `ContextCancelled`. -/
def mainLoop (env : RunEnv) : Nat → Nat → Option RunStatus
  | _, 0 => none
  | i, fuel + 1 =>
    match env.mainEvent i with
    | .timeout =>
      if env.isAlive i then mainLoop env (i + 1) fuel else some .ConnectionDroppped
    | .cancelled => some .ContextCancelled

/-- `Run`: acquire the leader lock (possibly returning `ContextCancelled`),
then poll forever until connection loss or cancellation.  `none` means the
fuel ran out with `Run` still looping (the Go function has no other way to
stop). -/
def Run (env : RunEnv) (fuel : Nat) : Option RunStatus :=
  match lockLoop env 0 fuel with
  | none => none
  | some (some s) => some s
  | some none => mainLoop env 0 fuel

/-- The push loop of `retriveChainsAndRun` after a successful query:
for each fetched chain, sleep `refetchTimeout*1000/headChainsCount`
milliseconds when `headChainsCount > maxChainsThreshold`, then push the
chain to the `chains` channel.  Each trace entry is (milliseconds slept
immediately before this push, chain pushed). -/
def pushLoop (headChainsCount : Nat) : List Chain → List (Nat × Chain)
  | [] => []
  | c :: rest =>
    ((if headChainsCount > maxChainsThreshold then
        refetchTimeout * 1000 / headChainsCount else 0), c)
      :: pushLoop headChainsCount rest

/-- `retriveChainsAndRun` with a successful `SelectContext` returning
`headChains`: `headChainsCount := len(headChains)`, then the push loop. -/
def retriveChainsAndRun (headChains : List Chain) : List (Nat × Chain) :=
  pushLoop headChains.length headChains

/-- Oracle for one dispatched chain inside `chainWorker`: the successive
results of `pgengine.CanProceedChainExecution`, the select arm taken while
admission is denied, and the oracles consumed by `executeChain`. -/
structure WorkerChainEnv where
  canProceed : Nat → Bool
  admissionEvent : Nat → LoopEvent
  txStartOk : Bool
  fetchOk : Bool
  items : List (ChainElementExecution × ElemEnv)

/-- The `for !pgengine.CanProceedChainExecution(...)` wait loop of
`chainWorker`, at attempt `t` with `fuel` budget: `some true` = admitted,
`some false` = cancellation fired (the worker returns), `none` = budget
exhausted while still waiting. -/
def admissionLoop (env : WorkerChainEnv) : Nat → Nat → Option Bool
  | _, 0 => none
  | t, fuel + 1 =>
    if env.canProceed t then
      some true
    else
      match env.admissionEvent t with
      | .cancelled => some false
      | .timeout => admissionLoop env (t + 1) fuel

/-- `chainWorker`'s `for chain := range chains` body over a finite prefix
of the channel: wait for admission, run `executeChain`, then
`if chain.SelfDestruct { pgengine.DeleteChainConfig(...) }`.  Each
processed entry yields (chain, run result, whether `DeleteChainConfig`
was called); cancellation or fuel exhaustion stops the worker. -/
def chainWorker (noShellTasks : Bool) (fuel : Nat) :
    List (Chain × WorkerChainEnv) → List (Chain × ChainRunResult × Bool)
  | [] => []
  | (chain, env) :: rest =>
    match admissionLoop env 0 fuel with
    | none => []
    | some false => []
    | some true =>
      (chain, executeChain noShellTasks env.txStartOk env.fetchOk env.items,
        chain.selfDestruct) :: chainWorker noShellTasks fuel rest

/-! Concrete fixtures used by witnesses and counterexamples. -/

/-- A SQL element whose statement succeeds. -/
def sampleOkItem : ChainElementExecution × ElemEnv :=
  (⟨7, 3, "", "SELECT 1", "SQL", false⟩, ⟨true, ["v"], false, 0, "", false, false⟩)

/-- A SQL element whose statement errors, with `IgnoreError` unset. -/
def sampleFailItem : ChainElementExecution × ElemEnv :=
  (⟨7, 3, "", "SELECT fail", "SQL", false⟩, ⟨true, ["v"], true, 0, "", false, false⟩)

/-- A SQL element whose statement errors, with `IgnoreError` set. -/
def sampleIgnoreFailItem : ChainElementExecution × ElemEnv :=
  (⟨7, 3, "", "SELECT fail", "SQL", true⟩, ⟨true, ["v"], true, 0, "", false, false⟩)

/-- An element of a kind outside {SQL, SHELL, BUILTIN}. -/
def sampleWeirdItem : ChainElementExecution × ElemEnv :=
  (⟨7, 3, "", "", "FOO", false⟩, ⟨true, ["v"], false, 0, "", false, false⟩)

/-- A SHELL element. -/
def sampleShellItem : ChainElementExecution × ElemEnv :=
  (⟨7, 3, "", "exit 1", "SHELL", false⟩, ⟨true, ["v"], false, 1, "boom", true, false⟩)

/-- A `self_destruct` chain configuration. -/
def sampleSelfDestructChain : Chain := ⟨9, 4, "once", true, false, 16⟩

/-- A plain chain configuration. -/
def sampleChain : Chain := ⟨7, 3, "demo", false, false, 16⟩

/-- Claim C3: when fetching the chain's ordered elements fails, `executeChain`
rolls back the transaction and aborts the attempt; no ChainRun header is
inserted, no status is written, and no element is dispatched. -/
theorem executeChain_fetch_failure (noShellTasks : Bool)
    (items : List (ChainElementExecution × ElemEnv)) :
    executeChain noShellTasks true false items =
      ⟨[], false, .rolledBack, [], []⟩ := rfl

/-- Claim C4: a chain with an empty element list records the single run-level
terminal status CHAIN_DONE and commits, dispatching no element. -/
theorem executeChain_empty_chain (noShellTasks : Bool) :
    executeChain noShellTasks true true [] =
      ⟨[⟨none, "CHAIN_DONE"⟩], true, .committed, [], []⟩ := rfl

/-- Claim C8: for a SHELL element with shell execution globally disabled
(`pgengine.NoShellTasks`), the dispatcher returns result code -1 and
invokes no backend at all. -/
theorem shell_disabled_short_circuit (env : ElemEnv) (e : ChainElementExecution)
    (hkind : e.kind = "SHELL") :
    executeChainElement true env e = (-1, []) := by
  unfold executeChainElement switchByKind
  rw [hkind]
  cases hp : env.paramValuesOk <;> simp

/-- Witness for C8 at a concrete SHELL element. -/
theorem shell_disabled_short_circuit_witness :
    sampleShellItem.1.kind = "SHELL" ∧
    executeChainElement true sampleShellItem.2 sampleShellItem.1 = (-1, []) :=
  ⟨rfl, shell_disabled_short_circuit sampleShellItem.2 sampleShellItem.1 rfl⟩

/-- Claim C5: after the kind switch falls through with a `retCode`/`err`
pair, a non-nil error yields a non-zero result (the numeric code when it
is non-zero, otherwise -1), and a nil error yields result 0. -/
theorem elem_error_normalization (noShellTasks : Bool) (env : ElemEnv)
    (e : ChainElementExecution) (retCode : Int) (errNotNil : Bool)
    (evs : List TaskEvent)
    (hp : env.paramValuesOk = true)
    (hsw : switchByKind noShellTasks env e = (.fallthrough retCode errNotNil, evs)) :
    (errNotNil = true →
        (executeChainElement noShellTasks env e).1 =
          (if retCode ≠ 0 then retCode else -1) ∧
        (executeChainElement noShellTasks env e).1 ≠ 0) ∧
    (errNotNil = false → (executeChainElement noShellTasks env e).1 = 0) := by
  have key : executeChainElement noShellTasks env e =
      if errNotNil then (if retCode ≠ 0 then retCode else -1, evs) else (0, evs) := by
    unfold executeChainElement
    rw [hp, hsw]
    simp
  constructor
  · intro he
    subst he
    rw [key]
    refine ⟨rfl, ?_⟩
    by_cases hz : retCode = 0
    · simp [hz]
    · simp [hz]
  · intro he
    subst he
    rw [key]
    simp

/-- Witness for C5: a SQL element whose statement errors while the switch
left `retCode` at 0; the dispatcher normalizes the result to -1. -/
theorem elem_error_normalization_witness :
    sampleFailItem.2.paramValuesOk = true ∧
    switchByKind false sampleFailItem.2 sampleFailItem.1 =
      (.fallthrough 0 true, [.sqlExec "SELECT fail" ["v"]]) ∧
    ((executeChainElement false sampleFailItem.2 sampleFailItem.1).1 =
        (if (0 : Int) ≠ 0 then (0 : Int) else -1) ∧
      (executeChainElement false sampleFailItem.2 sampleFailItem.1).1 ≠ 0) :=
  ⟨rfl, rfl,
    (elem_error_normalization false sampleFailItem.2 sampleFailItem.1 0 true
      [.sqlExec "SELECT fail" ["v"]] rfl rfl).1 rfl⟩

/-- Claim C10: an element whose kind is none of SQL, SHELL, BUILTIN hits no
switch arm: no backend is invoked, the result code is 0, and the chain
loop records STARTED and CHAIN_DONE for it and continues with the rest. -/
theorem unknown_kind_dispatch (noShellTasks : Bool) (env : ElemEnv)
    (e : ChainElementExecution) (rest : List (ChainElementExecution × ElemEnv))
    (i : Nat)
    (hp : env.paramValuesOk = true)
    (h1 : e.kind ≠ "SQL") (h2 : e.kind ≠ "SHELL") (h3 : e.kind ≠ "BUILTIN") :
    executeChainElement noShellTasks env e = (0, []) ∧
    chainLoop noShellTasks ((e, env) :: rest) i =
      ((⟨some i, "STARTED"⟩ : StatusRecord) :: ⟨some i, "CHAIN_DONE"⟩ ::
          (chainLoop noShellTasks rest (i + 1)).1,
        i :: (chainLoop noShellTasks rest (i + 1)).2.1,
        (chainLoop noShellTasks rest (i + 1)).2.2.1,
        (chainLoop noShellTasks rest (i + 1)).2.2.2) := by
  have hx : executeChainElement noShellTasks env e = (0, []) := by
    unfold executeChainElement switchByKind
    rw [hp]
    simp [h1, h2, h3]
  refine ⟨hx, ?_⟩
  rw [chainLoop, hx]
  simp

/-- Witness for C10 at a concrete element of kind FOO. -/
theorem unknown_kind_dispatch_witness :
    sampleWeirdItem.2.paramValuesOk = true ∧
    sampleWeirdItem.1.kind ≠ "SQL" ∧
    sampleWeirdItem.1.kind ≠ "SHELL" ∧
    sampleWeirdItem.1.kind ≠ "BUILTIN" ∧
    (executeChainElement false sampleWeirdItem.2 sampleWeirdItem.1 = (0, []) ∧
      chainLoop false [(sampleWeirdItem.1, sampleWeirdItem.2)] 0 =
        ((⟨some 0, "STARTED"⟩ : StatusRecord) :: ⟨some 0, "CHAIN_DONE"⟩ ::
            (chainLoop false [] 1).1,
          0 :: (chainLoop false [] 1).2.1,
          (chainLoop false [] 1).2.2.1,
          (chainLoop false [] 1).2.2.2)) :=
  ⟨rfl, by decide, by decide, by decide,
    unknown_kind_dispatch false sampleWeirdItem.2 sampleWeirdItem.1 [] 0 rfl
      (by decide) (by decide) (by decide)⟩

/-- Each pre-push sleep produced by the push loop at fetched count `n`. -/
lemma pushLoop_delay (n : Nat) :
    ∀ (cs : List Chain) (p : Nat × Chain), p ∈ pushLoop n cs →
      p.1 = if n > maxChainsThreshold then refetchTimeout * 1000 / n else 0 := by
  intro cs
  induction cs with
  | nil => intro p hp; exact absurd hp (List.not_mem_nil p)
  | cons c rest ih =>
    intro p hp
    rcases List.mem_cons.mp hp with h | h
    · subst h; rfl
    · exact ih p h

/-- Claim C7: every entry pushed by `retriveChainsAndRun` is preceded by a
sleep of `refetchTimeout*1000/count` milliseconds (integer division) when
the fetched count exceeds 16 * 60 = 960, and by no sleep otherwise. -/
theorem burst_smoothing_delay (headChains : List Chain) (p : Nat × Chain)
    (hp : p ∈ retriveChainsAndRun headChains) :
    p.1 = if 16 * 60 < headChains.length then
        60 * 1000 / headChains.length else 0 := by
  have h := pushLoop_delay headChains.length headChains p hp
  simpa [maxChainsThreshold, workersNumber, refetchTimeout, gt_iff_lt] using h

/-- Witness for C7: two fetched chains are below the threshold, so the
entry is pushed with no sleep. -/
theorem burst_smoothing_delay_witness :
    (0, sampleChain) ∈ retriveChainsAndRun [sampleChain, sampleChain] ∧
    (0, sampleChain).1 = if 16 * 60 < ([sampleChain, sampleChain] : List Chain).length
        then 60 * 1000 / ([sampleChain, sampleChain] : List Chain).length else 0 :=
  ⟨by decide, burst_smoothing_delay [sampleChain, sampleChain] (0, sampleChain) (by decide)⟩

/-- Worker oracle admitting immediately, with a failing SQL element. -/
def sampleWorkerEnvFail : WorkerChainEnv :=
  ⟨fun _ => true, fun _ => .timeout, true, true, [sampleFailItem]⟩

/-- Worker oracle admitting immediately, with an empty chain. -/
def sampleWorkerEnvEmpty : WorkerChainEnv :=
  ⟨fun _ => true, fun _ => .timeout, true, true, []⟩

/-- Claim C6 counterexample: a `self_destruct` chain whose only element
fails is rolled back (`CHAIN_FAILED`, no commit), yet the worker still
calls `DeleteChainConfig` — deletion is not conditioned on success. -/
theorem selfdestruct_failed_run_counterexample :
    chainWorker false 1 [(sampleSelfDestructChain, sampleWorkerEnvFail)] =
      [(sampleSelfDestructChain,
        ⟨[⟨some 0, "STARTED"⟩, ⟨some 0, "CHAIN_FAILED"⟩], true, .rolledBack, [0],
          [.sqlExec "SELECT fail" ["v"]]⟩, true)] := by decide

/-- Claim C6 amended: the worker deletes a configuration after a run
exactly when `self_destruct` is set, regardless of the run's outcome. -/
theorem selfdestruct_delete_unconditional (noShellTasks : Bool) (fuel : Nat)
    (queue : List (Chain × WorkerChainEnv))
    (entry : Chain × ChainRunResult × Bool)
    (hmem : entry ∈ chainWorker noShellTasks fuel queue) :
    entry.2.2 = entry.1.selfDestruct := by
  induction queue with
  | nil => exact absurd hmem (List.not_mem_nil entry)
  | cons head rest ih =>
    obtain ⟨chain, env⟩ := head
    rw [chainWorker] at hmem
    split at hmem
    · exact absurd hmem (List.not_mem_nil entry)
    · exact absurd hmem (List.not_mem_nil entry)
    · rcases List.mem_cons.mp hmem with h | h
      · subst h; rfl
      · exact ih h

/-- Witness for the amended C6: a `self_destruct` chain with an empty run
is deleted after processing. -/
theorem selfdestruct_delete_unconditional_witness :
    ((sampleSelfDestructChain, executeChain false true true [], true) :
        Chain × ChainRunResult × Bool) ∈
      chainWorker false 1 [(sampleSelfDestructChain, sampleWorkerEnvEmpty)] ∧
    ((sampleSelfDestructChain, executeChain false true true [], true) :
        Chain × ChainRunResult × Bool).2.2 =
      ((sampleSelfDestructChain, executeChain false true true [], true) :
        Chain × ChainRunResult × Bool).1.selfDestruct :=
  ⟨by decide,
    selfdestruct_delete_unconditional false 1
      [(sampleSelfDestructChain, sampleWorkerEnvEmpty)]
      (sampleSelfDestructChain, executeChain false true true [], true) (by decide)⟩

/-- When the first unignored failure sits at offset `k`, the chain loop
started at base index `b` ends in the failure branch, writes CHAIN_FAILED
for element `b + k`, and dispatches exactly indices `b, …, b + k`. -/
lemma chainLoop_firstFail (noShellTasks : Bool) :
    ∀ (items : List (ChainElementExecution × ElemEnv)) (b k : Nat)
      (hk : k < items.length),
      unignoredFailure noShellTasks (items.get ⟨k, hk⟩) →
      (∀ j (hj : j < k), ¬ unignoredFailure noShellTasks (items.get ⟨j, hj.trans hk⟩)) →
      (chainLoop noShellTasks items b).2.2.2 = true ∧
      (⟨some (b + k), "CHAIN_FAILED"⟩ : StatusRecord) ∈ (chainLoop noShellTasks items b).1 ∧
      (chainLoop noShellTasks items b).2.1 = List.range' b (k + 1) := by
  intro items
  induction items with
  | nil =>
    intro b k hk
    exact absurd hk (Nat.not_lt_zero k)
  | cons item rest ih =>
    obtain ⟨e, env⟩ := item
    intro b k hk hfail hbefore
    cases k with
    | zero =>
      have hf : ¬ (executeChainElement noShellTasks env e).1 = 0 ∧ e.ignoreError = false :=
        hfail
      rw [chainLoop, if_pos hf]
      refine ⟨rfl, ?_, rfl⟩
      simp
    | succ k =>
      have hnot : ¬ (¬ (executeChainElement noShellTasks env e).1 = 0 ∧
          e.ignoreError = false) :=
        hbefore 0 (Nat.succ_pos k)
      have hk' : k < rest.length := Nat.lt_of_succ_lt_succ hk
      have hfail' : unignoredFailure noShellTasks (rest.get ⟨k, hk'⟩) := hfail
      have hbefore' : ∀ j (hj : j < k),
          ¬ unignoredFailure noShellTasks (rest.get ⟨j, hj.trans hk'⟩) :=
        fun j hj => hbefore (j + 1) (Nat.succ_lt_succ hj)
      obtain ⟨ht, hm, hd⟩ := ih (b + 1) k hk' hfail' hbefore'
      rw [chainLoop, if_neg hnot]
      refine ⟨ht, ?_, ?_⟩
      · have : b + (k + 1) = (b + 1) + k := by omega
        rw [this]
        exact List.mem_cons_of_mem _ (List.mem_cons_of_mem _ hm)
      · show b :: (chainLoop noShellTasks rest (b + 1)).2.1 = List.range' b (k + 1 + 1)
        rw [hd]
        exact (List.range'_succ b (k + 1) 1).symm

/-- Claim C1: if the chain's first unignored non-zero element is at
position `k`, `executeChain` ends rolled back, records CHAIN_FAILED for
element `k`, and dispatches exactly elements `0, …, k` — nothing after `k`. -/
theorem failfast_rollback (noShellTasks : Bool)
    (items : List (ChainElementExecution × ElemEnv)) (k : Nat)
    (hk : k < items.length)
    (hfail : unignoredFailure noShellTasks (items.get ⟨k, hk⟩))
    (hbefore : ∀ j (hj : j < k),
      ¬ unignoredFailure noShellTasks (items.get ⟨j, hj.trans hk⟩)) :
    (executeChain noShellTasks true true items).txOutcome = .rolledBack ∧
    (⟨some k, "CHAIN_FAILED"⟩ : StatusRecord) ∈
      (executeChain noShellTasks true true items).statusRecords ∧
    (executeChain noShellTasks true true items).dispatched = List.range (k + 1) := by
  obtain ⟨ht, hm, hd⟩ := chainLoop_firstFail noShellTasks items 0 k hk hfail hbefore
  have hx : executeChain noShellTasks true true items =
      (if (chainLoop noShellTasks items 0).2.2.2 then
        ⟨(chainLoop noShellTasks items 0).1, true, .rolledBack,
          (chainLoop noShellTasks items 0).2.1, (chainLoop noShellTasks items 0).2.2.1⟩
      else
        ⟨(chainLoop noShellTasks items 0).1 ++ [⟨none, "CHAIN_DONE"⟩], true, .committed,
          (chainLoop noShellTasks items 0).2.1, (chainLoop noShellTasks items 0).2.2.1⟩) :=
    rfl
  rw [hx, ht]
  refine ⟨rfl, by simpa using hm, ?_⟩
  rw [List.range_eq_range']
  exact hd

/-- Witness for C1: the second of two elements fails unignored; the run is
rolled back having dispatched exactly elements 0 and 1. -/
theorem failfast_rollback_witness :
    (executeChain false true true [sampleOkItem, sampleFailItem]).txOutcome = .rolledBack ∧
    (⟨some 1, "CHAIN_FAILED"⟩ : StatusRecord) ∈
      (executeChain false true true [sampleOkItem, sampleFailItem]).statusRecords ∧
    (executeChain false true true [sampleOkItem, sampleFailItem]).dispatched =
      List.range 2 :=
  failfast_rollback false [sampleOkItem, sampleFailItem] 1 (by decide) (by decide)
    (by decide)

/-- Claim C2 counterexample: an element finishing with code 0 gets the
terminal label CHAIN_DONE, never DONE; an ignored failure (non-zero code,
`IgnoreError` set) also gets CHAIN_DONE, never FAILED. -/
theorem element_terminal_label_counterexample :
    ((executeChainElement false sampleOkItem.2 sampleOkItem.1).1 = 0 ∧
      (⟨some 0, "DONE"⟩ : StatusRecord) ∉
        (executeChain false true true [sampleOkItem]).statusRecords ∧
      (⟨some 0, "CHAIN_DONE"⟩ : StatusRecord) ∈
        (executeChain false true true [sampleOkItem]).statusRecords) ∧
    ((executeChainElement false sampleIgnoreFailItem.2 sampleIgnoreFailItem.1).1 ≠ 0 ∧
      (⟨some 0, "FAILED"⟩ : StatusRecord) ∉
        (executeChain false true true [sampleIgnoreFailItem]).statusRecords ∧
      (⟨some 0, "CHAIN_DONE"⟩ : StatusRecord) ∈
        (executeChain false true true [sampleIgnoreFailItem]).statusRecords) := by
  decide

/-- Every index the chain loop dispatches gets a STARTED write immediately
followed by its terminal write: CHAIN_FAILED on an unignored failure,
CHAIN_DONE otherwise. -/
lemma chainLoop_elem_records (noShellTasks : Bool) :
    ∀ (items : List (ChainElementExecution × ElemEnv)) (b idx : Nat),
      idx ∈ (chainLoop noShellTasks items b).2.1 →
      ∃ (j : Nat) (hj : j < items.length), idx = b + j ∧
        ∃ l₁ l₂, (chainLoop noShellTasks items b).1 =
          l₁ ++ (⟨some idx, "STARTED"⟩ : StatusRecord) ::
            (⟨some idx, if unignoredFailure noShellTasks (items.get ⟨j, hj⟩)
              then "CHAIN_FAILED" else "CHAIN_DONE"⟩ : StatusRecord) :: l₂ := by
  intro items
  induction items with
  | nil =>
    intro b idx hmem
    exact absurd hmem (List.not_mem_nil idx)
  | cons item rest ih =>
    obtain ⟨e, env⟩ := item
    intro b idx hmem
    by_cases hc : ¬ (executeChainElement noShellTasks env e).1 = 0 ∧ e.ignoreError = false
    · rw [chainLoop, if_pos hc] at hmem ⊢
      have hidx : idx = b := by simpa using hmem
      subst hidx
      refine ⟨0, Nat.succ_pos rest.length, by omega, [], [], ?_⟩
      have hu : unignoredFailure noShellTasks (((e, env) :: rest).get ⟨0, Nat.succ_pos rest.length⟩) := hc
      rw [if_pos hu]
      rfl
    · rw [chainLoop, if_neg hc] at hmem ⊢
      rcases List.mem_cons.mp hmem with h | h
      · subst h
        refine ⟨0, Nat.succ_pos rest.length, (Nat.add_zero idx).symm, [],
          (chainLoop noShellTasks rest (idx + 1)).1, ?_⟩
        have hu : ¬ unignoredFailure noShellTasks (((e, env) :: rest).get ⟨0, Nat.succ_pos rest.length⟩) := hc
        rw [if_neg hu]
        rfl
      · obtain ⟨j, hj, hidx, l₁, l₂, hrec⟩ := ih (b + 1) idx h
        refine ⟨j + 1, Nat.succ_lt_succ hj, by omega, ⟨some b, "STARTED"⟩ ::
          ⟨some b, "CHAIN_DONE"⟩ :: l₁, l₂, ?_⟩
        have hget : ((e, env) :: rest).get ⟨j + 1, Nat.succ_lt_succ hj⟩ = rest.get ⟨j, hj⟩ := rfl
        rw [hget]
        show (⟨some b, "STARTED"⟩ : StatusRecord) :: ⟨some b, "CHAIN_DONE"⟩ ::
            (chainLoop noShellTasks rest (b + 1)).1 = _
        rw [hrec]
        rfl

/-- Claim C2 amended: each dispatched element first gets a STARTED write,
then its terminal write right after dispatch — CHAIN_FAILED when its code
is non-zero with `IgnoreError` unset, CHAIN_DONE otherwise (code 0 or an
ignored failure). -/
theorem element_status_transitions (noShellTasks : Bool)
    (items : List (ChainElementExecution × ElemEnv)) (i : Nat)
    (hi : i < items.length)
    (hdisp : i ∈ (executeChain noShellTasks true true items).dispatched) :
    ∃ l₁ l₂, (executeChain noShellTasks true true items).statusRecords =
      l₁ ++ (⟨some i, "STARTED"⟩ : StatusRecord) ::
        (⟨some i, if unignoredFailure noShellTasks (items.get ⟨i, hi⟩)
          then "CHAIN_FAILED" else "CHAIN_DONE"⟩ : StatusRecord) :: l₂ := by
  have hx : executeChain noShellTasks true true items =
      (if (chainLoop noShellTasks items 0).2.2.2 then
        ⟨(chainLoop noShellTasks items 0).1, true, .rolledBack,
          (chainLoop noShellTasks items 0).2.1, (chainLoop noShellTasks items 0).2.2.1⟩
      else
        ⟨(chainLoop noShellTasks items 0).1 ++ [⟨none, "CHAIN_DONE"⟩], true, .committed,
          (chainLoop noShellTasks items 0).2.1, (chainLoop noShellTasks items 0).2.2.1⟩) :=
    rfl
  rw [hx] at hdisp ⊢
  have hmem : i ∈ (chainLoop noShellTasks items 0).2.1 := by
    rcases hb : (chainLoop noShellTasks items 0).2.2.2 with _ | _ <;>
      rw [hb] at hdisp <;> simpa using hdisp
  obtain ⟨j, hj, hij, l₁, l₂, hrec⟩ := chainLoop_elem_records noShellTasks items 0 i hmem
  obtain rfl : j = i := by omega
  rcases hb : (chainLoop noShellTasks items 0).2.2.2 with _ | _
  · refine ⟨l₁, l₂ ++ [⟨none, "CHAIN_DONE"⟩], ?_⟩
    show (chainLoop noShellTasks items 0).1 ++ [⟨none, "CHAIN_DONE"⟩] = _
    rw [hrec, List.append_assoc]
    rfl
  · exact ⟨l₁, l₂, hrec⟩

/-- Witness for the amended C2: a single successful element yields the
write sequence STARTED, CHAIN_DONE. -/
theorem element_status_transitions_witness :
    0 < ([sampleOkItem] : List (ChainElementExecution × ElemEnv)).length ∧
    0 ∈ (executeChain false true true [sampleOkItem]).dispatched ∧
    ∃ l₁ l₂, (executeChain false true true [sampleOkItem]).statusRecords =
      l₁ ++ (⟨some 0, "STARTED"⟩ : StatusRecord) ::
        (⟨some 0, if unignoredFailure false (([sampleOkItem] :
            List (ChainElementExecution × ElemEnv)).get ⟨0, Nat.succ_pos 0⟩)
          then "CHAIN_FAILED" else "CHAIN_DONE"⟩ : StatusRecord) :: l₂ :=
  ⟨Nat.succ_pos 0, by decide,
    element_status_transitions false [sampleOkItem] 0 (Nat.succ_pos 0) (by decide)⟩

/-- The lock-acquisition loop returns a status only when a failed probe is
followed by the cancellation arm, and that status is `ContextCancelled`. -/
lemma lockLoop_cancelled (env : RunEnv) :
    ∀ (fuel i : Nat) (s : RunStatus), lockLoop env i fuel = some (some s) →
      s = .ContextCancelled ∧
      ∃ j, env.tryLock j = false ∧ env.lockEvent j = .cancelled := by
  intro fuel
  induction fuel with
  | zero =>
    intro i s h
    exact Option.noConfusion h
  | succ n ih =>
    intro i s h
    rw [lockLoop] at h
    by_cases ht : env.tryLock i
    · rw [if_pos ht] at h
      exact Option.noConfusion (Option.some.inj h)
    · rw [if_neg ht] at h
      cases hev : env.lockEvent i with
      | cancelled =>
        rw [hev] at h
        obtain rfl : RunStatus.ContextCancelled = s :=
          Option.some.inj (Option.some.inj h)
        exact ⟨rfl, i, Bool.eq_false_iff.mpr ht, hev⟩
      | timeout =>
        rw [hev] at h
        exact ih (i + 1) s h

/-- The polling loop returns `ContextCancelled` only from the cancellation
arm, and `ConnectionDroppped` only from a timeout whose liveness probe
failed. -/
lemma mainLoop_outcome (env : RunEnv) :
    ∀ (fuel i : Nat) (s : RunStatus), mainLoop env i fuel = some s →
      (s = .ContextCancelled ∧ ∃ j, env.mainEvent j = .cancelled) ∨
      (s = .ConnectionDroppped ∧
        ∃ j, env.mainEvent j = .timeout ∧ env.isAlive j = false) := by
  intro fuel
  induction fuel with
  | zero =>
    intro i s h
    exact Option.noConfusion h
  | succ n ih =>
    intro i s h
    rw [mainLoop] at h
    cases hev : env.mainEvent i with
    | cancelled =>
      rw [hev] at h
      obtain rfl : RunStatus.ContextCancelled = s := Option.some.inj h
      exact .inl ⟨rfl, i, hev⟩
    | timeout =>
      rw [hev] at h
      by_cases ha : env.isAlive i
      · rw [if_pos ha] at h
        exact ih (i + 1) s h
      · rw [if_neg ha] at h
        obtain rfl : RunStatus.ConnectionDroppped = s := Option.some.inj h
        exact .inr ⟨rfl, i, hev, Bool.eq_false_iff.mpr ha⟩

/-- Claim C9: whenever `Run` returns, the status is `ContextCancelled` —
from cancellation during a failed leader-lock probe or between poll
cycles — or `ConnectionDroppped` — from a failed liveness probe after a
poll interval; the two-constructor `RunStatus` admits no other outcome. -/
theorem run_terminal_outcomes (env : RunEnv) (fuel : Nat) (s : RunStatus)
    (h : Run env fuel = some s) :
    (s = .ContextCancelled ∧
      ((∃ j, env.tryLock j = false ∧ env.lockEvent j = .cancelled) ∨
        ∃ j, env.mainEvent j = .cancelled)) ∨
    (s = .ConnectionDroppped ∧
      ∃ j, env.mainEvent j = .timeout ∧ env.isAlive j = false) := by
  unfold Run at h
  cases hl : lockLoop env 0 fuel with
  | none =>
    rw [hl] at h
    exact Option.noConfusion h
  | some o =>
    cases o with
    | some s' =>
      rw [hl] at h
      obtain rfl : s' = s := Option.some.inj h
      obtain ⟨hs, j, hjt, hje⟩ := lockLoop_cancelled env fuel 0 _ hl
      exact .inl ⟨hs, .inl ⟨j, hjt, hje⟩⟩
    | none =>
      rw [hl] at h
      rcases mainLoop_outcome env fuel 0 s h with ⟨hs, j, hj⟩ | ⟨hs, j, hj⟩
      · exact .inl ⟨hs, .inr ⟨j, hj⟩⟩
      · exact .inr ⟨hs, j, hj⟩

/-- Oracle whose first poll cycle observes cancellation. -/
def sampleRunEnv : RunEnv :=
  ⟨fun _ => true, fun _ => .timeout, fun _ => .cancelled, fun _ => true⟩

/-- Witness for C9: with the lock acquired at once and cancellation in the
first poll cycle, `Run` returns `ContextCancelled`. -/
theorem run_terminal_outcomes_witness :
    Run sampleRunEnv 1 = some .ContextCancelled ∧
    ((RunStatus.ContextCancelled = .ContextCancelled ∧
      ((∃ j, sampleRunEnv.tryLock j = false ∧ sampleRunEnv.lockEvent j = .cancelled) ∨
        ∃ j, sampleRunEnv.mainEvent j = .cancelled)) ∨
    (RunStatus.ContextCancelled = .ConnectionDroppped ∧
      ∃ j, sampleRunEnv.mainEvent j = .timeout ∧ sampleRunEnv.isAlive j = false)) :=
  ⟨rfl, run_terminal_outcomes sampleRunEnv 1 .ContextCancelled rfl⟩

end Scheduler
